import Mathlib

/-!
Verification of the `express-api-throttle` rate limiter (the repository's
core component per the specification): the in-memory window-counter store
(`MemoryStore`), the Redis-backed store (`RedisStore`), and the `throttle`
middleware factory, shallowly embedded from the JavaScript source.

Modelling conventions:
  * Timestamps (`Date.now()` results) and window durations are `Nat`
    milliseconds; quantities that the JavaScript code can drive negative
    (`config.max` supplied by the user, `resetTime - Date.now()`) are `Int`.
  * A JavaScript `Map` is modelled as a function `String → Option Record`
    (pointwise update), matching `Map.get`/`Map.set`/`Map.delete` semantics.
  * `async` functions are pure: every `Date.now()` read is an explicit
    parameter, and the results of effectful collaborators (the skip
    predicate, the key generator, the store call) are explicit inputs of
    the middleware function.  A JavaScript function that can throw is
    embedded with an `Except` result.
  * For the aliasing question (does `increment` hand out the store's own
    mutable record object?) a second, heap-explicit model of `MemoryStore`
    is used, in which the `Map` stores object references (`Nat` addresses)
    into a heap, exactly as the JavaScript engine does.
  * For the concurrency question, `RedisStore.increment` is split at its
    two `await` points (GET, then SETEX) into atomic steps, and schedules
    interleave the steps of concurrent calls; `MemoryStore.increment`
    contains no `await`, so on the event loop it runs as one atomic step.
-/

namespace Throttle

/-- A window record as stored by both stores: `{ hits, resetTime }`
(source lines 39 and 104). `hits` is the hit count in the current window,
`resetTime` the epoch-milliseconds instant at which the window expires. -/
structure Record where
  hits : Nat
  resetTime : Nat
deriving DecidableEq, Repr

/-- The `MemoryStore`'s backing `Map`, by its key/value semantics. -/
def MemStore : Type := String → Option Record

/-- A `new Map()`: no keys present. -/
def emptyStore : MemStore := fun _ => none

/-- `MemoryStore.get(key)` (source lines 21–26): returns the stored record
if present, `null` otherwise.  It consults no clock and mutates nothing. -/
def memGet (s : MemStore) (k : String) : Option Record := s k

/-- `this.store.set(key, record)`: pointwise map update. -/
def setKey (s : MemStore) (k : String) (r : Record) : MemStore :=
  fun k' => if k' = k then some r else s k'

/-- `MemoryStore.increment(key, windowMs)` (source lines 34–55), with the
`Date.now()` read an explicit `now` parameter.  Returns the record the
JavaScript function returns, paired with the store contents afterwards.
The source mutates the stored record in place and returns that same
object; at the level of map contents this equals storing the updated
value, which is what this value-semantics model records (the sharing
itself is modelled separately by the heap-explicit `hIncrement`). -/
def memIncrement (s : MemStore) (k : String) (windowMs now : Nat) :
    Record × MemStore :=
  match s k with
  | none =>
      let r : Record := ⟨1, now + windowMs⟩
      (r, setKey s k r)
  | some old =>
      if now > old.resetTime then
        let r : Record := ⟨1, now + windowMs⟩
        (r, setKey s k r)
      else
        let r : Record := ⟨old.hits + 1, old.resetTime⟩
        (r, setKey s k r)

/-- `MemoryStore.cleanup()` (source lines 60–67): delete every entry whose
`resetTime` lies strictly in the past (`now > record.resetTime`); keep the
rest. -/
def cleanup (s : MemStore) (now : Nat) : MemStore :=
  fun k =>
    match s k with
    | some r => if now > r.resetTime then none else some r
    | none => none

/-- `n`-fold repetition of `memIncrement` for one key at one instant
(`n` back-to-back requests within one window). -/
def iterInc (k : String) (windowMs now : Nat) : Nat → MemStore
  | 0 => emptyStore
  | n + 1 => (memIncrement (iterInc k windowMs now n) k windowMs now).2

/-- `Math.ceil(a / b)` on naturals, for positive `b` (used for the Redis
TTL at source line 116). -/
def natCeilDiv (a b : Nat) : Nat := (a + b - 1) / b

/-- `Math.ceil(a / 1000)` on an integer numerator, as JavaScript computes
it for the `X-RateLimit-Reset` and `Retry-After` headers (source lines
161 and 171): the true ceiling of the rational `a / 1000`. -/
def jsCeilDiv1000 (a : Int) : Int := (a + 999).ediv 1000

/-- The record `RedisStore.increment` computes from the GET result `data`
(source lines 101–113): fresh `{hits: 1, resetTime: now + windowMs}` when
the key is absent or its window has expired, otherwise the read record
with `hits` bumped and `resetTime` unchanged. -/
def redisNext (data : Option Record) (windowMs now : Nat) : Record :=
  match data with
  | none => ⟨1, now + windowMs⟩
  | some r =>
      if now > r.resetTime then ⟨1, now + windowMs⟩
      else ⟨r.hits + 1, r.resetTime⟩

/-- One complete, uninterrupted run of `RedisStore.increment(key, windowMs)`
(source lines 96–120) against current key contents `kv`: returns the
record handed back to the caller together with the `(value, ttlSeconds)`
pair written by `setEx`. -/
def redisIncrement (kv : Option Record) (windowMs now : Nat) :
    Record × (Record × Nat) :=
  let r := redisNext kv windowMs now
  (r, (r, natCeilDiv (r.resetTime - now) 1000))

/-- The progress of one in-flight `RedisStore.increment` call, split at its
`await` points: it has not yet issued the GET, or it holds the GET result
and has not yet issued the SETEX, or it has returned its record. -/
inductive RPhase where
  | start : RPhase
  | gotData : Option Record → RPhase
  | done : Record → RPhase
deriving DecidableEq, Repr

/-- One atomic step of an in-flight `RedisStore.increment` against the
current key contents `kv`: the GET (reads `kv`, leaves it unchanged) or
the SETEX (computes the next record from the value it read earlier and
overwrites `kv` with it).  A finished call steps to itself. -/
def rStep (kv : Option Record) (p : RPhase) (windowMs now : Nat) :
    RPhase × Option Record :=
  match p with
  | .start => (.gotData kv, kv)
  | .gotData d =>
      let r := redisNext d windowMs now
      (.done r, some r)
  | .done r => (.done r, kv)

/-- Run a schedule (a list of task identifiers; each occurrence executes
the named call's next atomic step) over concurrent `RedisStore.increment`
calls for one key, all with the same `windowMs` and `now`.  Returns the
final key contents and the final phase of every task. -/
def runSchedule (windowMs now : Nat) :
    List Nat → Option Record → (Nat → RPhase) →
    Option Record × (Nat → RPhase)
  | [], kv, ps => (kv, ps)
  | t :: rest, kv, ps =>
      let s := rStep kv (ps t) windowMs now
      runSchedule windowMs now rest s.2
        (fun t' => if t' = t then s.1 else ps t')

/-- The merged middleware configuration (source lines 129–142), restricted
to the data the request handler consumes.  The pluggable functions
(`keyGenerator`, `skip`, `store`, `handler`, `onLimitReached`) enter the
request model through their results; here only their presence matters. -/
structure Config where
  windowMs : Int
  max : Int
  message : String
  statusCode : Nat
  headers : Bool
  hasHandler : Bool
  hasOnLimitReached : Bool
deriving DecidableEq, Repr

/-- The options object a caller passes to `throttle(options)`: each
recognised field is either supplied or absent (defaulted). -/
structure ThrottleOptions where
  windowMs : Option Int := none
  max : Option Int := none
  message : Option String := none
  statusCode : Option Nat := none
  headers : Option Bool := none
  hasHandler : Option Bool := none
  hasOnLimitReached : Option Bool := none
deriving DecidableEq, Repr

/-- The spread-merge `{ ...defaults, ...options }` of source line 142 with
the defaults of lines 129–140. -/
def mergeOptions (o : ThrottleOptions) : Config :=
  { windowMs := o.windowMs.getD 60000
    max := o.max.getD 60
    message := o.message.getD "Too many requests, please try again later."
    statusCode := o.statusCode.getD 429
    headers := o.headers.getD true
    hasHandler := o.hasHandler.getD false
    hasOnLimitReached := o.hasOnLimitReached.getD false }

/-- The configuration errors the specification names for the factory. -/
inductive ConfigError where
  | invalidConfiguration : ConfigError
deriving DecidableEq, Repr

/-- The `throttle(options)` factory body (source lines 128–143) up to
returning the request handler.  Its result is embedded in `Except` so that
failing fast at construction is expressible; the body itself only merges
defaults with options and contains no validation and no `throw`, so it
always succeeds. -/
def throttleInit (o : ThrottleOptions) : Except ConfigError Config :=
  .ok (mergeOptions o)

/-- Whether a fallible computation failed. -/
def isFailure {ε α : Type} : Except ε α → Bool
  | .error _ => true
  | .ok _ => false

/-- How one request leaves the middleware (source lines 144–188):
pass-through via `next()` after counting, pass-through via the skip branch
without counting, delegation to a configured custom handler, the default
429-style rejection `res.status(..).json({success: false, message})`,
`next(err)` from the catch block, or an exception that escapes the async
function (an unhandled rejection at the transport layer).  Header lists
record the `res.setHeader` calls made on that path, in order. -/
inductive Outcome where
  | next : List (String × Int) → Outcome
  | skipped : Outcome
  | handled : List (String × Int) → Outcome
  | rejected : Nat → Bool × String → List (String × Int) → Outcome
  | nextError : String → Outcome
  | uncaught : String → Outcome
deriving DecidableEq, Repr

/-- The three `X-RateLimit-*` headers set at source lines 158–162 when
`config.headers` is on. -/
def baseHeaders (cfg : Config) (r : Record) : List (String × Int) :=
  if cfg.headers then
    [("X-RateLimit-Limit", cfg.max),
     ("X-RateLimit-Remaining", max 0 (cfg.max - (r.hits : Int))),
     ("X-RateLimit-Reset", jsCeilDiv1000 (r.resetTime : Int))]
  else []

/-- The request handler returned by `throttle` (source lines 144–188).
`skipResult` is what `config.skip(req, res)` returned; `keyRes` is the
result of `config.keyGenerator(req)` at line 151 — note this call sits
OUTSIDE the `try` of line 153, so a throw here escapes the handler;
`incRes` is the result of `await config.store.increment(...)` inside the
`try`; `nowHeader` is the `Date.now()` read at line 171 (a second clock
read, later than the one inside the store). -/
def runMiddleware (cfg : Config) (skipResult : Bool)
    (keyRes : Except String String) (incRes : Except String Record)
    (nowHeader : Nat) : Outcome :=
  if skipResult then .skipped
  else
    match keyRes with
    | .error e => .uncaught e
    | .ok _ =>
        match incRes with
        | .error e => .nextError e
        | .ok r =>
            let hs := baseHeaders cfg r
            if (r.hits : Int) > cfg.max then
              let hs' := hs ++
                (if cfg.headers then
                  [("Retry-After",
                    jsCeilDiv1000 ((r.resetTime : Int) - (nowHeader : Int)))]
                 else [])
              if cfg.hasHandler then .handled hs'
              else .rejected cfg.statusCode (false, cfg.message) hs'
            else .next hs

/-- Whether the outcome is the counted pass-through `next()` call of
source line 184. -/
def isPass : Outcome → Bool
  | .next _ => true
  | _ => false

/-- First value bound to a header name on the outcome's response. -/
def lookupHeader : List (String × Int) → String → Option Int
  | [], _ => none
  | (n, v) :: rest, name =>
      if n = name then some v else lookupHeader rest name

/-- The `Retry-After` value the outcome attached, if any. -/
def retryAfterOf : Outcome → Option Int
  | .next hs => lookupHeader hs "Retry-After"
  | .handled hs => lookupHeader hs "Retry-After"
  | .rejected _ _ hs => lookupHeader hs "Retry-After"
  | _ => none

/-- Modelled from the spec (§4.1 increment contract), for comparison with
the two stores: a fresh record `{hits := 1, resetTime := now + windowMs}`
when no record exists or the existing record's reset instant has passed,
otherwise the existing record with `hits` incremented by one and
`resetTime` unchanged. -/
def specIncrementResult (existing : Option Record) (windowMs now : Nat) :
    Record :=
  match existing with
  | none => ⟨1, now + windowMs⟩
  | some old =>
      if old.resetTime < now then ⟨1, now + windowMs⟩
      else ⟨old.hits + 1, old.resetTime⟩

/-- Modelled from the spec (§4.2): the retry-after value as the claim
states it, `ceil((windowResetAt - now) / 1000)` floored at 0. -/
def specRetryAfterFloored (resetTime now : Nat) : Int :=
  max 0 (jsCeilDiv1000 ((resetTime : Int) - (now : Int)))

/-- Heap-explicit model of `MemoryStore` for the ownership question: the
`Map` stores references (addresses) to record objects living in a heap,
as the JavaScript engine does. -/
structure HState where
  heap : Nat → Option Record
  nextAddr : Nat
  tbl : String → Option Nat

/-- The store as constructed: empty map, empty heap. -/
def hEmpty : HState := ⟨fun _ => none, 0, fun _ => none⟩

/-- Overwrite heap cell `a` with record `r`. -/
def hWrite (st : HState) (a : Nat) (r : Record) : HState :=
  ⟨fun a' => if a' = a then some r else st.heap a', st.nextAddr, st.tbl⟩

/-- `MemoryStore.increment` at the object level (source lines 34–55): on a
fresh or absent key it allocates a new record object, stores the
REFERENCE in the map, and returns that same reference (lines 39–41); on a
live key it mutates the referenced object in place through the stored
reference and returns that reference (lines 44–54).  No copy is made on
either path. -/
def hIncrement (st : HState) (k : String) (windowMs now : Nat) :
    Nat × HState :=
  match st.tbl k with
  | none =>
      let a := st.nextAddr
      (a, ⟨fun a' => if a' = a then some ⟨1, now + windowMs⟩ else st.heap a',
           a + 1,
           fun k' => if k' = k then some a else st.tbl k'⟩)
  | some a =>
      match st.heap a with
      | some r =>
          if now > r.resetTime then
            (a, hWrite st a ⟨1, now + windowMs⟩)
          else
            (a, hWrite st a ⟨r.hits + 1, r.resetTime⟩)
      | none => (a, st)

/-- A caller executing `record.hits = n` on the reference `a` it received:
mutation through the returned reference. -/
def hMutateHits (st : HState) (a : Nat) (n : Nat) : HState :=
  match st.heap a with
  | some r => hWrite st a ⟨n, r.resetTime⟩
  | none => st

/-- What a subsequent `MemoryStore.get(key)` lets its caller observe: the
record object the map's stored reference points to. -/
def hObserve (st : HState) (k : String) : Option Record :=
  match st.tbl k with
  | some a => st.heap a
  | none => none

end Throttle

namespace Throttle

/-- Both stores hand back a record with at least one hit: every branch of
the increment logic returns `hits = 1` or `hits = old.hits + 1`. -/
theorem memIncrement_hits_pos (s : MemStore) (k : String) (windowMs now : Nat) :
    1 ≤ (memIncrement s k windowMs now).1.hits := by
  unfold memIncrement
  cases h : s k with
  | none => simp
  | some old =>
      by_cases hexp : now > old.resetTime <;> simp [hexp]

/-- The Redis variant's returned record also has at least one hit. -/
theorem redisIncrement_hits_pos (kv : Option Record) (windowMs now : Nat) :
    1 ≤ (redisIncrement kv windowMs now).1.hits := by
  unfold redisIncrement redisNext
  cases kv with
  | none => simp
  | some old =>
      by_cases hexp : now > old.resetTime <;> simp [hexp]

/-- After `n + 1` back-to-back increments for `k` at instant `now`, the
store holds `{hits := n + 1, resetTime := now + windowMs}` for `k`. -/
theorem iterInc_lookup (k : String) (windowMs now : Nat) :
    ∀ n : Nat, iterInc k windowMs now (n + 1) k = some ⟨n + 1, now + windowMs⟩ := by
  intro n
  induction n with
  | zero =>
      simp [iterInc, memIncrement, emptyStore, setKey]
  | succ m ih =>
      show (memIncrement (iterInc k windowMs now (m + 1)) k windowMs now).2 k = _
      simp [memIncrement, ih, setKey, Nat.not_lt.mpr (Nat.le_add_right now windowMs)]

/-- The record returned by the `(n + 1)`-th back-to-back increment. -/
theorem iterInc_record (k : String) (windowMs now : Nat) :
    ∀ n : Nat, (memIncrement (iterInc k windowMs now n) k windowMs now).1
      = ⟨n + 1, now + windowMs⟩ := by
  intro n
  cases n with
  | zero => simp [iterInc, memIncrement, emptyStore]
  | succ m =>
      simp [memIncrement, iterInc_lookup k windowMs now m,
        Nat.not_lt.mpr (Nat.le_add_right now windowMs)]

end Throttle

namespace Throttle

/-- C2: for every key and positive window duration, `increment` creates a
fresh record with `hitCount = 1` and `windowResetAt = now + windowMs` when
no record exists for the key or the existing record's `windowResetAt` has
passed, otherwise it increments `hitCount` by exactly 1 and leaves
`windowResetAt` unchanged; it returns the post-increment record, and the
store afterwards holds exactly that record (MemoryStore), respectively
writes exactly that record (RedisStore). -/
theorem C2_increment_matches_spec (s : MemStore) (kv : Option Record)
    (k : String) (windowMs now : Nat) (hw : 0 < windowMs) :
    (memIncrement s k windowMs now).1 = specIncrementResult (s k) windowMs now
    ∧ (memIncrement s k windowMs now).2 k = some (memIncrement s k windowMs now).1
    ∧ (redisIncrement kv windowMs now).1 = specIncrementResult kv windowMs now
    ∧ (redisIncrement kv windowMs now).2.1 = (redisIncrement kv windowMs now).1 := by
  refine ⟨?_, ?_, ?_, rfl⟩
  · unfold memIncrement specIncrementResult
    cases h : s k with
    | none => simp
    | some old => by_cases hexp : now > old.resetTime <;> simp [hexp, Nat.lt_iff_add_one_le]
  · unfold memIncrement
    cases h : s k with
    | none => simp [setKey]
    | some old => by_cases hexp : now > old.resetTime <;> simp [hexp, setKey]
  · unfold redisIncrement redisNext specIncrementResult
    cases kv with
    | none => simp
    | some old => by_cases hexp : now > old.resetTime <;> simp [hexp]

/-- Witness for C2 at a concrete input: an empty memory store and an
absent Redis key, with a 1000 ms window at instant 5. -/
theorem C2_increment_matches_spec_witness :
    (0 : Nat) < 1000
    ∧ ((memIncrement emptyStore "k" 1000 5).1
        = specIncrementResult (emptyStore "k") 1000 5
      ∧ (memIncrement emptyStore "k" 1000 5).2 "k"
        = some (memIncrement emptyStore "k" 1000 5).1
      ∧ (redisIncrement none 1000 5).1 = specIncrementResult none 1000 5
      ∧ (redisIncrement none 1000 5).2.1 = (redisIncrement none 1000 5).1) :=
  ⟨by decide, C2_increment_matches_spec emptyStore none "k" 1000 5 (by decide)⟩

/-- C6: the sweep deletes a record exactly when its `windowResetAt` has
passed at sweep time; an expired record is removed, and one still within
its window (such as a record incremented just before the sweep) is kept
unchanged. -/
theorem C6_cleanup_iff_expired (s : MemStore) (now : Nat) (k : String)
    (r : Record) (h : s k = some r) :
    cleanup s now k = (if now > r.resetTime then none else some r)
    ∧ (r.resetTime < now → cleanup s now k = none)
    ∧ (now ≤ r.resetTime → cleanup s now k = some r) := by
  refine ⟨by simp [cleanup, h], fun hlt => ?_, fun hle => ?_⟩
  · simp [cleanup, h, hlt]
  · simp [cleanup, h, Nat.not_lt.mpr hle]

/-- Witness for C6 at a concrete store: one key expired at sweep time. -/
theorem C6_cleanup_iff_expired_witness :
    setKey emptyStore "k" ⟨3, 100⟩ "k" = some ⟨3, 100⟩
    ∧ (cleanup (setKey emptyStore "k" ⟨3, 100⟩) 200 "k"
        = (if 200 > (100 : Nat) then none else some ⟨3, 100⟩)
      ∧ ((100 : Nat) < 200 → cleanup (setKey emptyStore "k" ⟨3, 100⟩) 200 "k" = none)
      ∧ ((200 : Nat) ≤ 100 →
          cleanup (setKey emptyStore "k" ⟨3, 100⟩) 200 "k" = some ⟨3, 100⟩)) :=
  ⟨by simp [setKey, emptyStore],
   C6_cleanup_iff_expired (setKey emptyStore "k" ⟨3, 100⟩) 200 "k" ⟨3, 100⟩
     (by simp [setKey, emptyStore])⟩

/-- C10: a stale record (reset instant already passed) that the sweep has
not yet removed is still returned as-is by `get`; expiry is enforced by
the sweep (which would delete it) and by `increment` (which would restart
the window with `hits = 1`), never by `get`, which takes no clock at all. -/
theorem C10_get_returns_stale (s : MemStore) (k : String) (r : Record)
    (now windowMs : Nat) (hs : s k = some r) (hstale : r.resetTime < now) :
    memGet s k = some r
    ∧ cleanup s now k = none
    ∧ (memIncrement s k windowMs now).1 = ⟨1, now + windowMs⟩ := by
  refine ⟨by simp [memGet, hs], by simp [cleanup, hs, hstale], ?_⟩
  simp [memIncrement, hs, hstale]

/-- Witness for C10: a record that expired at 100, observed at 200. -/
theorem C10_get_returns_stale_witness :
    setKey emptyStore "k" ⟨3, 100⟩ "k" = some ⟨3, 100⟩
    ∧ (100 : Nat) < 200
    ∧ (memGet (setKey emptyStore "k" ⟨3, 100⟩) "k" = some ⟨3, 100⟩
      ∧ cleanup (setKey emptyStore "k" ⟨3, 100⟩) 200 "k" = none
      ∧ (memIncrement (setKey emptyStore "k" ⟨3, 100⟩) "k" 1000 200).1
          = ⟨1, 200 + 1000⟩) :=
  ⟨by simp [setKey, emptyStore], by decide,
   C10_get_returns_stale (setKey emptyStore "k" ⟨3, 100⟩) "k" ⟨3, 100⟩ 200 1000
     (by simp [setKey, emptyStore]) (by decide)⟩

end Throttle

namespace Throttle

/-- C1: two concurrent `RedisStore.increment` calls for the same key,
interleaved at their `await` points as GET(A), GET(B), SETEX(A), SETEX(B)
on an initially absent key, both complete — yet the stored hit count ends
at 1, not 2: `RedisStore.increment` is a non-atomic read-modify-write, so
one update is lost, contradicting the claimed atomicity of the shared
store variant.  (The in-memory variant has no `await` between its read
and its write and is not subject to this interleaving.) -/
theorem C1_redis_lost_update :
    ((runSchedule 60000 0 [0, 1, 0, 1] none (fun _ => .start)).2 0
        = .done ⟨1, 60000⟩
      ∧ (runSchedule 60000 0 [0, 1, 0, 1] none (fun _ => .start)).2 1
        = .done ⟨1, 60000⟩)
    ∧ (runSchedule 60000 0 [0, 1, 0, 1] none (fun _ => .start)).1
        = some ⟨1, 60000⟩
    ∧ ¬ ((runSchedule 60000 0 [0, 1, 0, 1] none (fun _ => .start)).1.map
          Record.hits = some 2) := by
  refine ⟨⟨rfl, rfl⟩, rfl, by decide⟩

/-- C8: with a non-positive configured maximum, every request is rejected
immediately: whatever the store state, the post-increment record of either
store variant never passes admission (and the evaluation is a total
function, so it cannot crash). -/
theorem C8_nonpositive_max_rejects_all (cfg : Config) (s : MemStore)
    (kv : Option Record) (key k : String) (windowMs now t : Nat)
    (hmax : cfg.max ≤ 0) :
    isPass (runMiddleware cfg false (.ok key)
        (.ok (memIncrement s k windowMs now).1) t) = false
    ∧ isPass (runMiddleware cfg false (.ok key)
        (.ok (redisIncrement kv windowMs now).1) t) = false := by
  constructor
  · have h1 : 1 ≤ (memIncrement s k windowMs now).1.hits :=
      memIncrement_hits_pos s k windowMs now
    have hgt : ((memIncrement s k windowMs now).1.hits : Int) > cfg.max := by
      have : (1 : Int) ≤ ((memIncrement s k windowMs now).1.hits : Int) := by
        exact_mod_cast h1
      omega
    unfold runMiddleware
    simp only [if_neg (Bool.false_ne_true), if_pos hgt]
    by_cases hh : cfg.hasHandler <;> simp [hh, isPass, hgt]
  · have h1 : 1 ≤ (redisIncrement kv windowMs now).1.hits :=
      redisIncrement_hits_pos kv windowMs now
    have hgt : ((redisIncrement kv windowMs now).1.hits : Int) > cfg.max := by
      have : (1 : Int) ≤ ((redisIncrement kv windowMs now).1.hits : Int) := by
        exact_mod_cast h1
      omega
    unfold runMiddleware
    by_cases hh : cfg.hasHandler <;> simp [hh, isPass, hgt]

/-- Witness for C8: `max = 0` (the spec's degenerate scenario), first
request on either store variant, and it is rejected. -/
theorem C8_nonpositive_max_rejects_all_witness :
    (mergeOptions { max := some 0 }).max ≤ 0
    ∧ (isPass (runMiddleware (mergeOptions { max := some 0 }) false (.ok "ip1")
        (.ok (memIncrement emptyStore "ip1" 60000 0).1) 0) = false
      ∧ isPass (runMiddleware (mergeOptions { max := some 0 }) false (.ok "ip1")
        (.ok (redisIncrement none 60000 0).1) 0) = false) :=
  ⟨by decide,
   C8_nonpositive_max_rejects_all (mergeOptions { max := some 0 }) emptyStore
     none "ip1" "ip1" 60000 0 0 (by decide)⟩

end Throttle

namespace Throttle

/-- Admission through the middleware reduces to the comparison of source
line 165: the request reaches `next()` exactly when the post-increment
hit count does not exceed `config.max`. -/
theorem isPass_runMiddleware (cfg : Config) (key : String) (r : Record)
    (t : Nat) :
    isPass (runMiddleware cfg false (.ok key) (.ok r) t)
      = decide ((r.hits : Int) ≤ cfg.max) := by
  unfold runMiddleware
  by_cases hgt : (r.hits : Int) > cfg.max
  · have hle : ¬ ((r.hits : Int) ≤ cfg.max) := not_le.mpr hgt
    by_cases hh : cfg.hasHandler <;> simp [hh, hgt, isPass, hle]
  · have hle : (r.hits : Int) ≤ cfg.max := not_lt.mp hgt
    simp [hgt, isPass, hle]

/-- C3: a request is admitted iff its post-increment hit count is at most
the configured maximum (inclusive boundary), and hence, counting from an
empty store within a single window, the `maxN`-th request is admitted
while the `(maxN + 1)`-th is rejected. -/
theorem C3_admission_boundary (cfg : Config) (key k : String) (r : Record)
    (t windowMs now maxN : Nat) (hmax : 0 < maxN)
    (hcfg : cfg.max = (maxN : Int)) :
    (isPass (runMiddleware cfg false (.ok key) (.ok r) t) = true
      ↔ r.hits ≤ maxN)
    ∧ isPass (runMiddleware cfg false (.ok key)
        (.ok (memIncrement (iterInc k windowMs now (maxN - 1)) k windowMs now).1)
        t) = true
    ∧ isPass (runMiddleware cfg false (.ok key)
        (.ok (memIncrement (iterInc k windowMs now maxN) k windowMs now).1)
        t) = false := by
  refine ⟨?_, ?_, ?_⟩
  · rw [isPass_runMiddleware, hcfg]
    simp [Nat.cast_le]
  · rw [isPass_runMiddleware, iterInc_record k windowMs now (maxN - 1), hcfg]
    simp only [decide_eq_true_eq]
    have : maxN - 1 + 1 = maxN := Nat.succ_pred_eq_of_pos hmax
    rw [this]
  · rw [isPass_runMiddleware, iterInc_record k windowMs now maxN, hcfg]
    simp [Nat.cast_le]

/-- Witness for C3, the spec's scenario `windowMs = 1000, maxHits = 2`:
the 2nd rapid request for "ip1" is admitted, the 3rd is rejected. -/
theorem C3_admission_boundary_witness :
    (0 : Nat) < 2
    ∧ (mergeOptions { windowMs := some 1000, max := some 2 }).max = ((2 : Nat) : Int)
    ∧ ((isPass (runMiddleware (mergeOptions { windowMs := some 1000, max := some 2 })
          false (.ok "ip1") (.ok ⟨1, 1000⟩) 0) = true
        ↔ (Record.mk 1 1000).hits ≤ 2)
      ∧ isPass (runMiddleware (mergeOptions { windowMs := some 1000, max := some 2 })
          false (.ok "ip1")
          (.ok (memIncrement (iterInc "ip1" 1000 0 (2 - 1)) "ip1" 1000 0).1) 0) = true
      ∧ isPass (runMiddleware (mergeOptions { windowMs := some 1000, max := some 2 })
          false (.ok "ip1")
          (.ok (memIncrement (iterInc "ip1" 1000 0 2) "ip1" 1000 0).1) 0) = false) :=
  ⟨by decide, by decide,
   C3_admission_boundary (mergeOptions { windowMs := some 1000, max := some 2 })
     "ip1" "ip1" ⟨1, 1000⟩ 0 1000 0 2 (by decide) (by decide)⟩

end Throttle

namespace Throttle

/-- C4 counterexample: `config.keyGenerator(req)` is called at source line
151, OUTSIDE the `try` that begins at line 153, so a throwing key
extractor is not caught at the adapter boundary: the exception escapes
the async handler as an unhandled rejection (`Outcome.uncaught`), for the
default configuration — contradicting the claim that such errors are
always caught and resolved per a fail-open/fail-closed policy (a policy
the recognised options of lines 129–140 do not even contain). -/
theorem C4_counterexample :
    runMiddleware (mergeOptions {}) false (.error "keyGenerator threw")
        (.ok ⟨1, 60000⟩) 0
      = .uncaught "keyGenerator threw" := rfl

/-- C4 as amended: a store `increment` failure is caught by the
`try`/`catch` of lines 153–187 and forwarded to `next(err)` — the
framework's error path, a 5xx-class response — under EVERY configuration
(there is no fail-open option, so it never becomes a pass-through),
while a key-extractor failure is never caught and escapes the handler
unhandled. -/
theorem C4_amended_error_paths (cfg : Config) (key e : String) (r : Record)
    (t : Nat) :
    runMiddleware cfg false (.ok key) (.error e) t = .nextError e
    ∧ runMiddleware cfg false (.error e) (.ok r) t = .uncaught e :=
  ⟨rfl, rfl⟩

/-- C5 counterexample: a rejected request whose `Retry-After` is computed
after the window end (source line 171 reads `Date.now()` a second time)
carries the NEGATIVE value `-1`, whereas the claim's formula — floored at
0 — yields 0: the code does not floor the retry-after value.  Input:
`max = 2`, record `{hits := 3, resetTime := 1000}`, header-time clock
2001 ms. -/
theorem C5_counterexample :
    retryAfterOf (runMiddleware (mergeOptions { windowMs := some 1000, max := some 2 })
        false (.ok "ip1") (.ok ⟨3, 1000⟩) 2001) = some (-1)
    ∧ specRetryAfterFloored 1000 2001 = 0
    ∧ ((-1 : Int) ≠ 0) := by
  refine ⟨by decide, by decide, by decide⟩

/-- C5 as amended: on every rejected request (with headers on) the
attached `Retry-After` equals `ceil((windowResetAt - now) / 1000)` with NO
flooring at 0 — it is strictly positive whenever the header-time clock is
still inside the window, but can be negative when the window has ended by
then — and no `Retry-After` is attached to an admitted request. -/
theorem C5_amended_retry_after (cfg : Config) (key : String) (r r2 : Record)
    (t : Nat) (hh : cfg.headers = true) (hrej : (r.hits : Int) > cfg.max)
    (hadm : (r2.hits : Int) ≤ cfg.max) :
    retryAfterOf (runMiddleware cfg false (.ok key) (.ok r) t)
      = some (jsCeilDiv1000 ((r.resetTime : Int) - (t : Int)))
    ∧ (t < r.resetTime → 0 < jsCeilDiv1000 ((r.resetTime : Int) - (t : Int)))
    ∧ retryAfterOf (runMiddleware cfg false (.ok key) (.ok r2) t) = none := by
  refine ⟨?_, fun hlt => ?_, ?_⟩
  · unfold runMiddleware
    by_cases hcfgH : cfg.hasHandler <;>
      simp [hcfgH, hrej, retryAfterOf, baseHeaders, hh, lookupHeader]
  · have e : jsCeilDiv1000 ((r.resetTime : Int) - (t : Int))
        = ((r.resetTime : Int) - (t : Int) + 999) / 1000 := rfl
    have hlt' : (t : Int) < (r.resetTime : Int) := by exact_mod_cast hlt
    rw [e]
    omega
  · unfold runMiddleware
    have hng : ¬ ((r2.hits : Int) > cfg.max) := not_lt.mpr hadm
    simp [hng, retryAfterOf, baseHeaders, hh, lookupHeader]

/-- Witness for C5 as amended: `max = 2`, third request of the window
(`hits = 3`, reset at 1000) with the header clock at 0 gives
`Retry-After = 1 > 0`; an admitted record (`hits = 1`) gets none. -/
theorem C5_amended_retry_after_witness :
    (mergeOptions { windowMs := some 1000, max := some 2 }).headers = true
    ∧ ((3 : Nat) : Int) > (mergeOptions { windowMs := some 1000, max := some 2 }).max
    ∧ ((1 : Nat) : Int) ≤ (mergeOptions { windowMs := some 1000, max := some 2 }).max
    ∧ (retryAfterOf (runMiddleware (mergeOptions { windowMs := some 1000, max := some 2 })
          false (.ok "ip1") (.ok ⟨3, 1000⟩) 0)
        = some (jsCeilDiv1000 (((1000 : Nat) : Int) - ((0 : Nat) : Int)))
      ∧ ((0 : Nat) < 1000 → 0 < jsCeilDiv1000 (((1000 : Nat) : Int) - ((0 : Nat) : Int)))
      ∧ retryAfterOf (runMiddleware (mergeOptions { windowMs := some 1000, max := some 2 })
          false (.ok "ip1") (.ok ⟨1, 1000⟩) 0) = none) :=
  ⟨by decide, by decide, by decide,
   C5_amended_retry_after (mergeOptions { windowMs := some 1000, max := some 2 })
     "ip1" ⟨3, 1000⟩ ⟨1, 1000⟩ 0 (by decide) (by decide) (by decide)⟩

end Throttle

namespace Throttle

/-- C7 counterexample: the factory body (source lines 128–143) only
spread-merges defaults with options and contains no validation and no
throw, so constructing a middleware with `windowMs = -5` and `max = 0`
SUCCEEDS — no `InvalidConfiguration` failure occurs — and the degenerate
values land unchanged in the merged configuration. -/
theorem C7_counterexample :
    isFailure (throttleInit { windowMs := some (-5), max := some 0 }) = false
    ∧ throttleInit { windowMs := some (-5), max := some 0 }
        = .ok (mergeOptions { windowMs := some (-5), max := some 0 })
    ∧ (mergeOptions { windowMs := some (-5), max := some 0 }).max = 0
    ∧ (mergeOptions { windowMs := some (-5), max := some 0 }).windowMs = -5 :=
  ⟨rfl, rfl, rfl, rfl⟩

/-- C7 as amended: the factory never fails at construction time — it
performs no validation and accepts non-positive `windowMs` and `max` —
and a non-positive `max` instead takes effect at request time, where
every request is rejected. -/
theorem C7_amended_no_validation (o : ThrottleOptions) (m : Int)
    (s : MemStore) (key k : String) (windowMs now t : Nat)
    (hm : o.max = some m) (hm0 : m ≤ 0) :
    (throttleInit o).isOk = true
    ∧ isPass (runMiddleware (mergeOptions o) false (.ok key)
        (.ok (memIncrement s k windowMs now).1) t) = false := by
  refine ⟨rfl, ?_⟩
  have hcm : (mergeOptions o).max = m := by simp [mergeOptions, hm]
  rw [isPass_runMiddleware, hcm]
  have h1 : 1 ≤ (memIncrement s k windowMs now).1.hits :=
    memIncrement_hits_pos s k windowMs now
  have h1' : (1 : Int) ≤ ((memIncrement s k windowMs now).1.hits : Int) := by
    exact_mod_cast h1
  simp only [decide_eq_false_iff_not, not_le]
  omega

/-- Witness for C7 as amended: `max = 0` is accepted at construction and
the first request is rejected at request time. -/
theorem C7_amended_no_validation_witness :
    ({ max := some 0 } : ThrottleOptions).max = some 0
    ∧ (0 : Int) ≤ 0
    ∧ ((throttleInit { max := some 0 }).isOk = true
      ∧ isPass (runMiddleware (mergeOptions { max := some 0 }) false (.ok "ip1")
          (.ok (memIncrement emptyStore "ip1" 60000 7).1) 7) = false) :=
  ⟨rfl, by decide,
   C7_amended_no_validation { max := some 0 } 0 emptyStore "ip1" "ip1" 60000 7 7
     rfl (by decide)⟩

/-- C9 counterexample: in the heap-explicit model of `MemoryStore`, the
first `increment` for "k" stores a reference and returns that same
reference; the caller's mutation `record.hits = 99` through the returned
reference changes what a subsequent `get` observes from `hits = 1` to
`hits = 99` — the caller received the store's live record, not a
copy/snapshot. -/
theorem C9_counterexample :
    hObserve (hIncrement hEmpty "k" 1000 0).2 "k" = some ⟨1, 1000⟩
    ∧ hObserve (hMutateHits (hIncrement hEmpty "k" 1000 0).2
        (hIncrement hEmpty "k" 1000 0).1 99) "k" = some ⟨99, 1000⟩
    ∧ ¬ (some (Record.mk 99 1000) = some (Record.mk 1 1000)) := by
  refine ⟨by decide, by decide, by decide⟩

/-- C9 as amended: `MemoryStore.increment` returns the very reference the
map stores (source lines 39–41 and 44–54 mutate in place and return the
stored object): after an increment on a fresh key the map's entry IS the
returned reference, and a caller mutation through it is visible to every
subsequent `get`. -/
theorem C9_amended_alias (st : HState) (k : String) (windowMs now n : Nat)
    (hfresh : st.tbl k = none) :
    (hIncrement st k windowMs now).2.tbl k = some (hIncrement st k windowMs now).1
    ∧ hObserve (hIncrement st k windowMs now).2 k = some ⟨1, now + windowMs⟩
    ∧ hObserve (hMutateHits (hIncrement st k windowMs now).2
        (hIncrement st k windowMs now).1 n) k = some ⟨n, now + windowMs⟩ := by
  unfold hIncrement
  rw [hfresh]
  simp [hObserve, hMutateHits, hWrite]

/-- Witness for C9 as amended, at the empty store. -/
theorem C9_amended_alias_witness :
    hEmpty.tbl "k" = none
    ∧ ((hIncrement hEmpty "k" 1000 0).2.tbl "k"
        = some (hIncrement hEmpty "k" 1000 0).1
      ∧ hObserve (hIncrement hEmpty "k" 1000 0).2 "k" = some ⟨1, 0 + 1000⟩
      ∧ hObserve (hMutateHits (hIncrement hEmpty "k" 1000 0).2
          (hIncrement hEmpty "k" 1000 0).1 99) "k" = some ⟨99, 0 + 1000⟩) :=
  ⟨rfl, C9_amended_alias hEmpty "k" 1000 0 99 rfl⟩

end Throttle
